import Mathlib

/-!
Shallow embedding of `app.py` (Architutor): a Streamlit script that chains
four prompts through a hosted generative model.  One run of the script is
modelled as a pure function of
  * the model handle (`Option GenModel`; `none` models `ai_model = None`),
  * whether the Analyze button was pressed,
  * the text-area content, and
  * the session state (`st.session_state`, holding the cached analysis result),
returning the new session state together with a `Trace`: the list of prompts
sent to the Gateway (in order) and the list of displayed items (in order).
The outcome of one model call is an `Except String String`: `Except.ok t`
models `response.text = t`, `Except.error e` models an exception with
message `e`.
-/

/-- Substring test on character lists: does the needle occur at the head? -/
def listStartsWith : List Char → List Char → Bool
  | _, [] => true
  | [], _ :: _ => false
  | a :: as, b :: bs => a == b && listStartsWith as bs

/-- Substring containment on character lists (Python `needle in haystack`). -/
def listContainsSub : List Char → List Char → Bool
  | [], needle => needle.isEmpty
  | h :: t, needle => listStartsWith (h :: t) needle || listContainsSub t needle

/-- Python substring test `pat in s`. -/
def containsSub (s pat : String) : Bool :=
  listContainsSub s.data pat.data

/-- The apostrophe character, used inside prompt template text. -/
def apos : String := String.singleton (Char.ofNat 39)

/-- One displayed item, tagged by which Streamlit display call emitted it. -/
inductive Display where
  | title (s : String)
  | header (s : String)
  | subheader (s : String)
  | markdown (s : String)
  | error (s : String)
deriving DecidableEq

/-- Observable effects of a piece of the script: prompts sent to the
Gateway, in order, and displayed items, in order. -/
structure Trace where
  calls : List String
  out : List Display
deriving DecidableEq

/-- The empty trace. -/
def Trace.nil : Trace := ⟨[], []⟩

/-- Trace concatenation (sequential composition of effects). -/
def Trace.app (a b : Trace) : Trace := ⟨a.calls ++ b.calls, a.out ++ b.out⟩

/-- The model handle: `generate p` is the outcome of
`ai_model.generate_content(p)` — the response text, or the raised
exception message. -/
structure GenModel where
  generate : String → Except String String

/-- Sentinel returned when `ai_model is None` (line 27 of `app.py`). -/
def errNotAvail : String := "AI model not available."

/-- Sentinel head of the string returned on a model-call exception
(line 33 of `app.py`); the driver guard matches this substring. -/
def errGetResp : String := "Error getting AI response"

/-- `get_ai_response(prompt)` (lines 23-33): returns the response text, or
the sentinel when the handle is `None`, or the error string on exception;
also emits the corresponding `st.error` items. -/
def get_ai_response (ai_model : Option GenModel) (prompt : String) :
    String × Trace :=
  match ai_model with
  | none =>
      ("AI model not available.",
       ⟨[], [Display.error "AI model not initialized. Cannot get response."]⟩)
  | some m =>
      match m.generate prompt with
      | Except.ok t => (t, ⟨[prompt], []⟩)
      | Except.error e =>
          ("Error getting AI response: " ++ e,
           ⟨[prompt], [Display.error ("Error getting AI response: " ++ e)]⟩)

/-- Default of the `image_info` parameter of `analyze_feedback`. -/
def defaultImageInfo : String := "No specific image information provided."

/-- The stage-1 prompt template (lines 43-55 of `app.py`). -/
def analysisPrompt (transcribed_text image_info : String) : String :=
  "\n    You are an AI assistant specializing in architectural feedback analysis.\n    You have received the following feedback from an instructor regarding a student" ++ apos ++ "s architectural work:\n\n    \"" ++ transcribed_text ++ "\"\n\n    The feedback is related to an architectural work described as:\n    \"" ++ image_info ++ "\"\n\n    Please analyze this feedback in the context of architectural principles.\n    Identify key points, areas for improvement, and potential strengths mentioned in the feedback.\n    Provide a concise summary of the analysis.\n    "

/-- The stage-2 (case studies) prompt template (lines 66-73). -/
def caseStudiesPrompt (ai_analysis_text : String) : String :=
  "\n    Based on the following architectural feedback analysis:\n    \"" ++ ai_analysis_text ++ "\"\n\n    Generate relevant illustrated case studies that exemplify the concepts discussed.\n    Focus on real-world examples or well-known architectural projects.\n    Provide brief explanations for each case study highlighting its relevance to the feedback analysis.\n    "

/-- The stage-3 (critical thinking) prompt template (lines 84-89). -/
def criticalThinkingPrompt (ai_analysis_text : String) : String :=
  "\n    Based on the following architectural feedback analysis:\n    \"" ++ ai_analysis_text ++ "\"\n\n    Generate critical thinking prompts and brainstorming questions that can help a student deepen their understanding and explore alternative design solutions related to the feedback.\n    "

/-- The stage-4 (abstract concepts) prompt template (lines 100-105). -/
def abstractConceptsPrompt (ai_analysis_text : String) : String :=
  "\n    Based on the following architectural feedback analysis:\n    \"" ++ ai_analysis_text ++ "\"\n\n    Identify any abstract or complex architectural concepts mentioned or implied, and provide clear, simple interpretations and explanations to aid student understanding and decision-making.\n    "

/-- `analyze_feedback` (lines 36-56): empty text (the only falsy string)
short-circuits before any prompt is built; otherwise one Gateway call. -/
def analyze_feedback (ai_model : Option GenModel)
    (transcribed_text image_info : String) : String × Trace :=
  if transcribed_text.isEmpty then
    ("No transcribed text to analyze.", Trace.nil)
  else
    get_ai_response ai_model (analysisPrompt transcribed_text image_info)

/-- `generate_case_studies` (lines 59-74): the guard checks only emptiness
and the `errNotAvail` sentinel. -/
def generate_case_studies (ai_model : Option GenModel)
    (ai_analysis_text : String) : String × Trace :=
  if ai_analysis_text.isEmpty || containsSub ai_analysis_text errNotAvail then
    ("Cannot generate case studies without a valid AI analysis.", Trace.nil)
  else
    get_ai_response ai_model (caseStudiesPrompt ai_analysis_text)

/-- `generate_critical_thinking_prompts` (lines 77-90). -/
def generate_critical_thinking_prompts (ai_model : Option GenModel)
    (ai_analysis_text : String) : String × Trace :=
  if ai_analysis_text.isEmpty || containsSub ai_analysis_text errNotAvail then
    ("Cannot generate critical thinking prompts without a valid AI analysis.",
     Trace.nil)
  else
    get_ai_response ai_model (criticalThinkingPrompt ai_analysis_text)

/-- `interpret_abstract_concepts` (lines 93-106). -/
def interpret_abstract_concepts (ai_model : Option GenModel)
    (ai_analysis_text : String) : String × Trace :=
  if ai_analysis_text.isEmpty || containsSub ai_analysis_text errNotAvail then
    ("Cannot interpret abstract concepts without a valid AI analysis.",
     Trace.nil)
  else
    get_ai_response ai_model (abstractConceptsPrompt ai_analysis_text)

/-- `st.session_state`: the one cached slot `analysis_result`
(`none` models both a missing key and the initial `None`). -/
structure SessionState where
  analysis_result : Option String
deriving DecidableEq

/-- Static page chrome emitted before the button handler
(lines 111-120 of `app.py`). -/
def chromeTrace : Trace :=
  ⟨[],
   [Display.title "📐 Architectural Feedback Analyzer",
    Display.markdown "\nThis application helps students analyze architectural feedback using AI.\nEnter your text feedback below, and the AI will provide a detailed analysis,\nrelevant case studies, critical thinking prompts, and interpretations of abstract concepts.\n",
    Display.header "📝 Enter Your Architectural Feedback"]⟩

/-- Static footer (lines 164-165). -/
def footerTrace : Trace :=
  ⟨[],
   [Display.markdown "---",
    Display.markdown "Built with Streamlit and Google Generative AI."]⟩

/-- The button handler (lines 126-131): on a press with truthy (nonempty)
text, run stage 1 and overwrite the cached result; otherwise do nothing. -/
def submitStep (ai_model : Option GenModel) (pressed : Bool)
    (user_feedback_text : String) (s0 : SessionState) :
    SessionState × Trace :=
  if pressed && !user_feedback_text.isEmpty then
    let r := analyze_feedback ai_model user_feedback_text defaultImageInfo
    (⟨some r.1⟩,
     Trace.app ⟨[], [Display.header "🤖 AI Analysis and Insights"]⟩ r.2)
  else (s0, Trace.nil)

/-- The display block (lines 134-161): shown whenever the cached result is
truthy; the downstream chain runs only when the stage-1 result contains
neither sentinel, else a single error line is shown. -/
def displayBlock (ai_model : Option GenModel)
    (analysis_result : Option String) : Trace :=
  match analysis_result with
  | none => Trace.nil
  | some analysis_text =>
      if analysis_text.isEmpty then Trace.nil
      else
        let hdr : Trace :=
          ⟨[], [Display.subheader "📊 AI Analysis Result:",
                Display.markdown analysis_text]⟩
        if !containsSub analysis_text errNotAvail
            && !containsSub analysis_text errGetResp then
          let cs := generate_case_studies ai_model analysis_text
          let ct := generate_critical_thinking_prompts ai_model analysis_text
          let ac := interpret_abstract_concepts ai_model analysis_text
          Trace.app hdr (Trace.app
            ⟨[], [Display.markdown "---",
                  Display.subheader "🏛️ Illustrated Case Studies"]⟩
            (Trace.app cs.2 (Trace.app
              ⟨[], [Display.markdown cs.1, Display.markdown "---",
                    Display.subheader "🤔 Critical Thinking Prompts"]⟩
              (Trace.app ct.2 (Trace.app
                ⟨[], [Display.markdown ct.1, Display.markdown "---",
                      Display.subheader "🧠 Interpretations of Abstract Concepts"]⟩
                (Trace.app ac.2 ⟨[], [Display.markdown ac.1]⟩))))))
        else
          Trace.app hdr
            ⟨[], [Display.error "Analysis failed, cannot generate further outputs."]⟩

/-- One full run of the script body (lines 108-165), after the one-time
client initialization which the `ai_model` parameter models. -/
def runApp (ai_model : Option GenModel) (pressed : Bool)
    (user_feedback_text : String) (s0 : SessionState) :
    SessionState × Trace :=
  let s := submitStep ai_model pressed user_feedback_text s0
  (s.1, Trace.app chromeTrace
          (Trace.app s.2
            (Trace.app (displayBlock ai_model s.1.analysis_result)
              footerTrace)))

/-- The stage-1 result of a pressed run with nonempty text. -/
def stage1Result (ai_model : Option GenModel) (t : String) : String :=
  (analyze_feedback ai_model t defaultImageInfo).1

/-- True on `st.error` items; used to state which runs display errors. -/
def Display.isErr : Display → Bool
  | Display.error _ => true
  | _ => false

/-- Prefix test on strings, used to state that Gateway error strings begin
with the fixed error head. -/
def strStartsWith (s pre : String) : Bool := listStartsWith s.data pre.data

/-- A model handle whose call always succeeds with the text "good". -/
def okTextModel : GenModel := ⟨fun _ => Except.ok "good"⟩

/-- A model handle whose call always raises with message "boom". -/
def failModel : GenModel := ⟨fun _ => Except.error "boom"⟩

/-- A model handle that succeeds on the stage-1 prompt and raises on every
downstream prompt (the three downstream templates all open with the words
"Based on", the stage-1 template does not). -/
def stage2FailModel : GenModel :=
  ⟨fun p => if containsSub p "Based on" then Except.error "boom" else Except.ok "good"⟩

/-- A model handle whose call always succeeds with the empty text, giving a
stage-1 result that contains neither sentinel yet is falsy. -/
def emptyTextModel : GenModel := ⟨fun _ => Except.ok ""⟩

@[simp] lemma Trace.app_calls (a b : Trace) : (Trace.app a b).calls = a.calls ++ b.calls := rfl

@[simp] lemma Trace.app_out (a b : Trace) : (Trace.app a b).out = a.out ++ b.out := rfl

@[simp] lemma Trace.nil_calls : Trace.nil.calls = [] := rfl

@[simp] lemma Trace.nil_out : Trace.nil.out = [] := rfl

@[simp] lemma chromeTrace_calls : chromeTrace.calls = [] := rfl

@[simp] lemma footerTrace_calls : footerTrace.calls = [] := rfl

@[simp] lemma isEmpty_empty_string : ("" : String).isEmpty = true := rfl

lemma get_ai_response_calls_some (g : GenModel) (p : String) :
    (get_ai_response (some g) p).2.calls = [p] := by
  cases hg : g.generate p <;> simp [get_ai_response, hg]

lemma analyze_feedback_calls_some (g : GenModel) (t i : String) (ht : t.isEmpty = false) :
    (analyze_feedback (some g) t i).2.calls = [analysisPrompt t i] := by
  simp [analyze_feedback, ht, get_ai_response_calls_some]

lemma analyze_feedback_calls_none (t i : String) :
    (analyze_feedback none t i).2.calls = [] := by
  unfold analyze_feedback
  split <;> simp [get_ai_response, Trace.nil]

lemma isEmpty_false_of_contains (a pat : String)
    (hp : containsSub "" pat = false) (h : containsSub a pat = true) :
    a.isEmpty = false := by
  cases he : a.isEmpty with
  | false => rfl
  | true =>
      rw [(String.isEmpty_iff a).mp he, hp] at h
      exact absurd h (by simp)

lemma runApp_state_pressed (m : Option GenModel) (t : String) (s0 : SessionState)
    (ht : t.isEmpty = false) :
    (runApp m true t s0).1 = ⟨some (stage1Result m t)⟩ := by
  simp [runApp, submitStep, stage1Result, ht]

lemma runApp_calls_pressed (m : Option GenModel) (t : String) (s0 : SessionState)
    (ht : t.isEmpty = false) :
    (runApp m true t s0).2.calls =
      (analyze_feedback m t defaultImageInfo).2.calls
        ++ (displayBlock m (some (stage1Result m t))).calls := by
  simp [runApp, submitStep, stage1Result, ht]

lemma displayBlock_bad (m : Option GenModel) (a : String) (hne : a.isEmpty = false)
    (h : (containsSub a errNotAvail || containsSub a errGetResp) = true) :
    displayBlock m (some a) =
      ⟨[], [Display.subheader "📊 AI Analysis Result:", Display.markdown a,
            Display.error "Analysis failed, cannot generate further outputs."]⟩ := by
  have hg : (!containsSub a errNotAvail && !containsSub a errGetResp) = false := by
    rw [← Bool.not_or, h]
    rfl
  simp [displayBlock, hne, hg, Trace.app]

lemma generate_case_studies_call (g : GenModel) (a : String)
    (hne : a.isEmpty = false) (h2 : containsSub a errNotAvail = false) :
    (generate_case_studies (some g) a).2.calls = [caseStudiesPrompt a] := by
  simp [generate_case_studies, hne, h2, get_ai_response_calls_some]

lemma generate_critical_thinking_prompts_call (g : GenModel) (a : String)
    (hne : a.isEmpty = false) (h2 : containsSub a errNotAvail = false) :
    (generate_critical_thinking_prompts (some g) a).2.calls = [criticalThinkingPrompt a] := by
  simp [generate_critical_thinking_prompts, hne, h2, get_ai_response_calls_some]

lemma interpret_abstract_concepts_call (g : GenModel) (a : String)
    (hne : a.isEmpty = false) (h2 : containsSub a errNotAvail = false) :
    (interpret_abstract_concepts (some g) a).2.calls = [abstractConceptsPrompt a] := by
  simp [interpret_abstract_concepts, hne, h2, get_ai_response_calls_some]

lemma displayBlock_good_calls (g : GenModel) (a : String) (hne : a.isEmpty = false)
    (h2 : containsSub a errNotAvail = false) (h3 : containsSub a errGetResp = false) :
    (displayBlock (some g) (some a)).calls =
      [caseStudiesPrompt a, criticalThinkingPrompt a, abstractConceptsPrompt a] := by
  simp [displayBlock, hne, h2, h3, Trace.app,
        generate_case_studies_call g a hne h2,
        generate_critical_thinking_prompts_call g a hne h2,
        interpret_abstract_concepts_call g a hne h2]

lemma get_ai_response_out_isErr (m : Option GenModel) (p : String) :
    ∀ d ∈ (get_ai_response m p).2.out, d.isErr = true := by
  cases m with
  | none => simp [get_ai_response, Display.isErr]
  | some g => cases hg : g.generate p <;> simp [get_ai_response, hg, Display.isErr]

lemma analyze_feedback_out_isErr (m : Option GenModel) (t i : String) :
    ∀ d ∈ (analyze_feedback m t i).2.out, d.isErr = true := by
  unfold analyze_feedback
  split
  · simp [Trace.nil]
  · exact get_ai_response_out_isErr m _

lemma markdown_not_mem_of_isErr (l : List Display) (h : ∀ d ∈ l, d.isErr = true)
    (s : String) : Display.markdown s ∉ l := by
  intro hm
  have := h _ hm
  simp [Display.isErr] at this

lemma runApp_out_pressed (m : Option GenModel) (t : String) (s0 : SessionState)
    (ht : t.isEmpty = false) :
    (runApp m true t s0).2.out =
      chromeTrace.out
        ++ (Display.header "🤖 AI Analysis and Insights"
              :: (analyze_feedback m t defaultImageInfo).2.out)
        ++ (displayBlock m (some (stage1Result m t))).out
        ++ footerTrace.out := by
  simp [runApp, submitStep, stage1Result, ht, Trace.app]

lemma listStartsWith_self_append (a b : List Char) : listStartsWith (a ++ b) a = true := by
  induction a with
  | nil => simp [listStartsWith]
  | cons c cs ih => simp [listStartsWith, ih]

lemma strStartsWith_self_append (a b : String) : strStartsWith (a ++ b) a = true :=
  listStartsWith_self_append a.data b.data

set_option maxRecDepth 100000

/-- Claim C1, counterexample: with a model that succeeds at stage 1 (result
"good", no sentinel) and raises at every downstream stage, the stage-2
output contains the error sentinel, yet the run still issues all four
Gateway calls — the stage-3 and stage-4 calls are not prevented, refuting
the claim that a failure at stage 2 or 3 halts the remaining stages. -/
theorem C1_counterexample :
    containsSub
      (generate_case_studies (some stage2FailModel)
        (stage1Result (some stage2FailModel) "hi")).1 errGetResp = true
    ∧ (runApp (some stage2FailModel) true "hi" ⟨none⟩).2.calls =
        [analysisPrompt "hi" defaultImageInfo, caseStudiesPrompt "good",
         criticalThinkingPrompt "good", abstractConceptsPrompt "good"] := by
  decide

/-- Claim C1, amended: the Gateway calls of a pressed run with nonempty
text are issued strictly in stage order analysis, case studies, critical
thinking, abstract concepts; when the stage-1 result contains an error
sentinel the run issues only the stage-1 call and no downstream stage
calls the Gateway; when the stage-1 result is nonempty and sentinel-free
the run issues exactly the four calls in that order (regardless of
whether stages 2 or 3 fail, as the counterexample shows). -/
theorem C1_order_halt (g : GenModel) (t : String) (s0 : SessionState)
    (ht : t.isEmpty = false) :
    ((containsSub (stage1Result (some g) t) errNotAvail
        || containsSub (stage1Result (some g) t) errGetResp) = true →
      (runApp (some g) true t s0).2.calls = [analysisPrompt t defaultImageInfo])
    ∧ ((stage1Result (some g) t).isEmpty = false →
       (containsSub (stage1Result (some g) t) errNotAvail
        || containsSub (stage1Result (some g) t) errGetResp) = false →
       (runApp (some g) true t s0).2.calls =
         [analysisPrompt t defaultImageInfo,
          caseStudiesPrompt (stage1Result (some g) t),
          criticalThinkingPrompt (stage1Result (some g) t),
          abstractConceptsPrompt (stage1Result (some g) t)]) := by
  constructor
  · intro h
    have hne : (stage1Result (some g) t).isEmpty = false := by
      rcases Bool.or_eq_true_iff.mp h with h1 | h1
      · exact isEmpty_false_of_contains _ _ (by decide) h1
      · exact isEmpty_false_of_contains _ _ (by decide) h1
    rw [runApp_calls_pressed _ _ _ ht, analyze_feedback_calls_some _ _ _ ht,
        displayBlock_bad _ _ hne h]
    rfl
  · intro hne h
    rcases Bool.or_eq_false_iff.mp h with ⟨h2, h3⟩
    rw [runApp_calls_pressed _ _ _ ht, analyze_feedback_calls_some _ _ _ ht,
        displayBlock_good_calls g _ hne h2 h3]
    rfl

/-- Claim C1, witness: both branches of the amended theorem at concrete
inputs — a stage-1 failure leaves exactly the one stage-1 call, and a
clean stage-1 result yields the four calls in order. -/
theorem C1_witness :
    (runApp (some failModel) true "hi" ⟨none⟩).2.calls =
      [analysisPrompt "hi" defaultImageInfo]
    ∧ (runApp (some okTextModel) true "hi" ⟨none⟩).2.calls =
        [analysisPrompt "hi" defaultImageInfo,
         caseStudiesPrompt (stage1Result (some okTextModel) "hi"),
         criticalThinkingPrompt (stage1Result (some okTextModel) "hi"),
         abstractConceptsPrompt (stage1Result (some okTextModel) "hi")] :=
  ⟨(C1_order_halt failModel "hi" ⟨none⟩ (by decide)).1 (by decide),
   (C1_order_halt okTextModel "hi" ⟨none⟩ (by decide)).2 (by decide) (by decide)⟩

/-- Claim C2, counterexample: with the Gateway unavailable, the stage-1
result is the sentinel, zero downstream Gateway calls occur, the single
error "Analysis failed, cannot generate further outputs." is displayed,
and none of the three static cannot-proceed strings is displayed —
refuting the claim that each downstream output displayed is the static
cannot-proceed string of its stage. -/
theorem C2_counterexample :
    containsSub (stage1Result none "hi") errNotAvail = true
    ∧ (runApp none true "hi" ⟨none⟩).2.calls = []
    ∧ Display.error "Analysis failed, cannot generate further outputs."
        ∈ (runApp none true "hi" ⟨none⟩).2.out
    ∧ Display.markdown "Cannot generate case studies without a valid AI analysis."
        ∉ (runApp none true "hi" ⟨none⟩).2.out
    ∧ Display.markdown "Cannot generate critical thinking prompts without a valid AI analysis."
        ∉ (runApp none true "hi" ⟨none⟩).2.out
    ∧ Display.markdown "Cannot interpret abstract concepts without a valid AI analysis."
        ∉ (runApp none true "hi" ⟨none⟩).2.out := by
  decide

/-- Claim C2, amended: whenever the stage-1 result of a pressed run with
nonempty text contains an error sentinel, the run issues zero downstream
Gateway calls (its calls are exactly those of stage 1); the downstream
stage functions are not invoked, so instead of their static
cannot-proceed strings a single error line "Analysis failed, cannot
generate further outputs." is displayed and none of the three
cannot-proceed strings appears in the output. -/
theorem C2_no_downstream (m : Option GenModel) (t : String) (s0 : SessionState)
    (ht : t.isEmpty = false)
    (hs : (containsSub (stage1Result m t) errNotAvail
            || containsSub (stage1Result m t) errGetResp) = true) :
    (runApp m true t s0).2.calls = (analyze_feedback m t defaultImageInfo).2.calls
    ∧ Display.error "Analysis failed, cannot generate further outputs."
        ∈ (runApp m true t s0).2.out
    ∧ Display.markdown "Cannot generate case studies without a valid AI analysis."
        ∉ (runApp m true t s0).2.out
    ∧ Display.markdown "Cannot generate critical thinking prompts without a valid AI analysis."
        ∉ (runApp m true t s0).2.out
    ∧ Display.markdown "Cannot interpret abstract concepts without a valid AI analysis."
        ∉ (runApp m true t s0).2.out := by
  have hne : (stage1Result m t).isEmpty = false := by
    rcases Bool.or_eq_true_iff.mp hs with h1 | h1
    · exact isEmpty_false_of_contains _ _ (by decide) h1
    · exact isEmpty_false_of_contains _ _ (by decide) h1
  have hb := displayBlock_bad m (stage1Result m t) hne hs
  have herr := analyze_feedback_out_isErr m t defaultImageInfo
  have hq1 : stage1Result m t ≠ "Cannot generate case studies without a valid AI analysis." := by
    intro he; rw [he] at hs; exact absurd hs (by decide)
  have hq2 : stage1Result m t ≠ "Cannot generate critical thinking prompts without a valid AI analysis." := by
    intro he; rw [he] at hs; exact absurd hs (by decide)
  have hq3 : stage1Result m t ≠ "Cannot interpret abstract concepts without a valid AI analysis." := by
    intro he; rw [he] at hs; exact absurd hs (by decide)
  refine ⟨?_, ?_, ?_, ?_, ?_⟩
  · rw [runApp_calls_pressed _ _ _ ht, hb]
    simp
  · rw [runApp_out_pressed _ _ _ ht, hb]
    simp
  · rw [runApp_out_pressed _ _ _ ht, hb]
    intro hmem
    simp [chromeTrace, footerTrace, hq1, Ne.symm hq1] at hmem
    exact markdown_not_mem_of_isErr _ herr _ hmem
  · rw [runApp_out_pressed _ _ _ ht, hb]
    intro hmem
    simp [chromeTrace, footerTrace, hq2, Ne.symm hq2] at hmem
    exact markdown_not_mem_of_isErr _ herr _ hmem
  · rw [runApp_out_pressed _ _ _ ht, hb]
    intro hmem
    simp [chromeTrace, footerTrace, hq3, Ne.symm hq3] at hmem
    exact markdown_not_mem_of_isErr _ herr _ hmem

/-- Claim C2, witness: the amended theorem applied at the run with the
Gateway unavailable and text "hi". -/
theorem C2_witness :
    (runApp none true "hi" ⟨none⟩).2.calls =
        (analyze_feedback none "hi" defaultImageInfo).2.calls
    ∧ Display.error "Analysis failed, cannot generate further outputs."
        ∈ (runApp none true "hi" ⟨none⟩).2.out
    ∧ Display.markdown "Cannot generate case studies without a valid AI analysis."
        ∉ (runApp none true "hi" ⟨none⟩).2.out
    ∧ Display.markdown "Cannot generate critical thinking prompts without a valid AI analysis."
        ∉ (runApp none true "hi" ⟨none⟩).2.out
    ∧ Display.markdown "Cannot interpret abstract concepts without a valid AI analysis."
        ∉ (runApp none true "hi" ⟨none⟩).2.out :=
  C2_no_downstream none "hi" ⟨none⟩ (by decide) (by decide)

/-- Claim C3, counterexample: an input that contains the sentinel
"Error getting AI response" (but not "AI model not available.") still
makes `generate_case_studies` call the Gateway — the stage guards check
only the one sentinel, refuting the claim that a stage calls the Gateway
if and only if its input contains neither of the two sentinels. -/
theorem C3_counterexample :
    containsSub "Error getting AI response: boom" errGetResp = true
    ∧ (generate_case_studies (some okTextModel) "Error getting AI response: boom").2.calls =
        [caseStudiesPrompt "Error getting AI response: boom"] := by
  decide

/-- Claim C3, amended: each downstream stage function calls the Gateway
exactly once if and only if its input is nonempty and does not contain
the sentinel "AI model not available."; otherwise it returns its static
cannot-proceed message with no Gateway call.  (The sentinel
"Error getting AI response" is checked only by the driver, not by the
stage functions.) -/
theorem C3_guard (g : GenModel) (x : String) :
    ((x.isEmpty || containsSub x errNotAvail) = true →
      generate_case_studies (some g) x =
        ("Cannot generate case studies without a valid AI analysis.", Trace.nil)
      ∧ generate_critical_thinking_prompts (some g) x =
        ("Cannot generate critical thinking prompts without a valid AI analysis.", Trace.nil)
      ∧ interpret_abstract_concepts (some g) x =
        ("Cannot interpret abstract concepts without a valid AI analysis.", Trace.nil))
    ∧ ((x.isEmpty || containsSub x errNotAvail) = false →
      (generate_case_studies (some g) x).2.calls = [caseStudiesPrompt x]
      ∧ (generate_critical_thinking_prompts (some g) x).2.calls = [criticalThinkingPrompt x]
      ∧ (interpret_abstract_concepts (some g) x).2.calls = [abstractConceptsPrompt x]) := by
  constructor
  · intro h
    refine ⟨?_, ?_, ?_⟩ <;>
      simp [generate_case_studies, generate_critical_thinking_prompts,
            interpret_abstract_concepts, h]
  · intro h
    rcases Bool.or_eq_false_iff.mp h with ⟨h1, h2⟩
    exact ⟨generate_case_studies_call g x h1 h2,
           generate_critical_thinking_prompts_call g x h1 h2,
           interpret_abstract_concepts_call g x h1 h2⟩

/-- Claim C3, witness: the amended guard theorem applied at a clean input
and at the empty input. -/
theorem C3_witness :
    (generate_case_studies (some okTextModel) "fine").2.calls = [caseStudiesPrompt "fine"]
    ∧ generate_case_studies (some okTextModel) "" =
        ("Cannot generate case studies without a valid AI analysis.", Trace.nil) :=
  ⟨((C3_guard okTextModel "fine").2 (by decide)).1,
   ((C3_guard okTextModel "").1 (by decide)).1⟩

/-- Claim C4, counterexample: submitting empty input from a fresh session
displays no error item at all (and issues no Gateway call) — refuting the
claim that empty input produces a visible error message like the other
two failure kinds. -/
theorem C4_counterexample :
    (runApp (some okTextModel) true "" ⟨none⟩).2.out.filter Display.isErr = []
    ∧ (runApp (some okTextModel) true "" ⟨none⟩).2.calls = [] := by
  decide

/-- Claim C4, amended: empty input is handled silently, not like the other
two failure kinds: a pressed run with empty text from a fresh session
writes nothing to the session state, issues no Gateway call, and displays
no error message at all (missing-credential and model-call failures, by
contrast, display error items — see the C5 and C6 theorems). -/
theorem C4_silent_skip (m : Option GenModel) :
    (runApp m true "" ⟨none⟩).1 = ⟨none⟩
    ∧ (runApp m true "" ⟨none⟩).2.calls = []
    ∧ (runApp m true "" ⟨none⟩).2.out.filter Display.isErr = [] := by
  refine ⟨?_, ?_, ?_⟩ <;>
    simp [runApp, submitStep, displayBlock, chromeTrace, footerTrace,
          Trace.app, Trace.nil, Display.isErr]

/-- Claim C5: with the Gateway unavailable (model handle `none`), a
pressed run with nonempty text caches exactly the sentinel string
"AI model not available." as the stage-1 result and issues zero Gateway
calls (in particular zero downstream calls). -/
theorem C5_unavailable (t : String) (s0 : SessionState) (ht : t.isEmpty = false) :
    (runApp none true t s0).1 = ⟨some "AI model not available."⟩
    ∧ (runApp none true t s0).2.calls = [] := by
  have hs : stage1Result none t = "AI model not available." := by
    simp [stage1Result, analyze_feedback, ht, get_ai_response]
  constructor
  · rw [runApp_state_pressed _ _ _ ht, hs]
  · rw [runApp_calls_pressed _ _ _ ht, hs, analyze_feedback_calls_none,
        displayBlock_bad none _ (by decide) (by decide)]
    rfl

/-- Claim C5, witness: the theorem applied at text "hi" from a fresh
session. -/
theorem C5_witness :
    (runApp none true "hi" ⟨none⟩).1 = ⟨some "AI model not available."⟩
    ∧ (runApp none true "hi" ⟨none⟩).2.calls = [] :=
  C5_unavailable "hi" ⟨none⟩ (by decide)

/-- Claim C6: `get_ai_response` is total over the embedded outcomes of the
model call: for every prompt it returns the response text on success,
exactly "AI model not available." when the handle is `None`, and on any
exception a string beginning "Error getting AI response: " — it never
propagates the exception. -/
theorem C6_total (m : Option GenModel) (p : String) :
    (m = none ∧ (get_ai_response m p).1 = "AI model not available.")
    ∨ (∃ g tx, m = some g ∧ g.generate p = Except.ok tx ∧ (get_ai_response m p).1 = tx)
    ∨ (∃ g e, m = some g ∧ g.generate p = Except.error e
        ∧ (get_ai_response m p).1 = "Error getting AI response: " ++ e
        ∧ strStartsWith (get_ai_response m p).1 "Error getting AI response: " = true) := by
  cases m with
  | none => exact Or.inl ⟨rfl, rfl⟩
  | some g =>
      cases hg : g.generate p with
      | ok tx => exact Or.inr (Or.inl ⟨g, tx, rfl, hg, by simp [get_ai_response, hg]⟩)
      | error e =>
          have he : (get_ai_response (some g) p).1 = "Error getting AI response: " ++ e := by
            simp [get_ai_response, hg]
          refine Or.inr (Or.inr ⟨g, e, rfl, hg, he, ?_⟩)
          rw [he]
          exact strStartsWith_self_append _ _

/-- Claim C7: a pressed run with empty text never writes the cached
analysis result (the session state is returned unchanged), and from a
fresh session it issues no Gateway call and produces no analysis
output. -/
theorem C7_empty_submit (m : Option GenModel) (s0 : SessionState) :
    (runApp m true "" s0).1 = s0
    ∧ (s0.analysis_result = none → (runApp m true "" s0).2.calls = []) := by
  constructor
  · simp [runApp, submitStep]
  · intro h
    simp [runApp, submitStep, displayBlock, h, chromeTrace, footerTrace,
          Trace.app, Trace.nil]

/-- Claim C7, witness: the theorem applied at the fresh session with the
Gateway unavailable. -/
theorem C7_witness :
    (runApp none true "" ⟨none⟩).1 = ⟨none⟩
    ∧ (runApp none true "" ⟨none⟩).2.calls = [] :=
  ⟨(C7_empty_submit none ⟨none⟩).1, (C7_empty_submit none ⟨none⟩).2 rfl⟩

/-- Claim C8, counterexample: a model whose stage-1 call succeeds with the
empty text gives a first-stage result that contains neither error
sentinel, yet the run issues only the stage-1 Gateway call — the driver
truthiness gate skips all three downstream stages — refuting the claim
that every sentinel-free first-stage result triggers the three downstream
invocations. -/
theorem C8_counterexample :
    containsSub (stage1Result (some emptyTextModel) "hi") errNotAvail = false
    ∧ containsSub (stage1Result (some emptyTextModel) "hi") errGetResp = false
    ∧ (runApp (some emptyTextModel) true "hi" ⟨none⟩).2.calls =
        [analysisPrompt "hi" defaultImageInfo] := by
  decide

/-- Claim C8, amended: when the stage-1 result of a pressed run is truthy
(nonempty) and contains neither sentinel, the run issues exactly four
Gateway calls: the stage-1 prompt followed by the three downstream
prompts in the fixed order case studies, critical thinking, abstract
concepts, each downstream prompt built from the stage-1 result — so each
downstream stage is invoked exactly once, in order, on the stage-1
result.  An empty first-stage result, though sentinel-free, is skipped by
the driver truthiness gate, as the counterexample shows. -/
theorem C8_downstream (g : GenModel) (t : String) (s0 : SessionState)
    (ht : t.isEmpty = false)
    (hne : (stage1Result (some g) t).isEmpty = false)
    (h2 : containsSub (stage1Result (some g) t) errNotAvail = false)
    (h3 : containsSub (stage1Result (some g) t) errGetResp = false) :
    (runApp (some g) true t s0).2.calls =
      [analysisPrompt t defaultImageInfo,
       caseStudiesPrompt (stage1Result (some g) t),
       criticalThinkingPrompt (stage1Result (some g) t),
       abstractConceptsPrompt (stage1Result (some g) t)] := by
  rw [runApp_calls_pressed _ _ _ ht, analyze_feedback_calls_some _ _ _ ht,
      displayBlock_good_calls g _ hne h2 h3]
  rfl

/-- Claim C8, witness: the amended theorem applied at a model returning
"good" and text "hi". -/
theorem C8_witness :
    ("hi" : String).isEmpty = false
    ∧ (runApp (some okTextModel) true "hi" ⟨none⟩).2.calls =
        [analysisPrompt "hi" defaultImageInfo,
         caseStudiesPrompt (stage1Result (some okTextModel) "hi"),
         criticalThinkingPrompt (stage1Result (some okTextModel) "hi"),
         abstractConceptsPrompt (stage1Result (some okTextModel) "hi")] :=
  ⟨by decide,
   C8_downstream okTextModel "hi" ⟨none⟩ (by decide) (by decide) (by decide) (by decide)⟩

/-- Claim C9, counterexample: a second submit whose analysis fails (here
the Gateway is unavailable) does overwrite the cached result "good" of
the first submit, but the three-stage downstream chain does not run again
(zero Gateway calls; the failure line is displayed instead) — refuting
the claim that the full downstream chain runs again after every pair of
successive submits. -/
theorem C9_counterexample :
    (runApp none true "bye" ⟨some "good"⟩).1 = ⟨some "AI model not available."⟩
    ∧ (runApp none true "bye" ⟨some "good"⟩).2.calls = []
    ∧ Display.error "Analysis failed, cannot generate further outputs."
        ∈ (runApp none true "bye" ⟨some "good"⟩).2.out := by
  decide

/-- Claim C9, amended: a pressed run with nonempty text overwrites the
cached stage-1 result with the new analysis output whatever the previous
session state was; the full three-stage downstream chain then runs again
from the new result exactly when that new result is nonempty and
sentinel-free. -/
theorem C9_resubmit (g : GenModel) (t : String) (s0 : SessionState)
    (ht : t.isEmpty = false) :
    (runApp (some g) true t s0).1 = ⟨some (stage1Result (some g) t)⟩
    ∧ ((stage1Result (some g) t).isEmpty = false →
       containsSub (stage1Result (some g) t) errNotAvail = false →
       containsSub (stage1Result (some g) t) errGetResp = false →
       (runApp (some g) true t s0).2.calls =
         [analysisPrompt t defaultImageInfo,
          caseStudiesPrompt (stage1Result (some g) t),
          criticalThinkingPrompt (stage1Result (some g) t),
          abstractConceptsPrompt (stage1Result (some g) t)]) := by
  refine ⟨runApp_state_pressed _ _ _ ht, fun hne h2 h3 => ?_⟩
  rw [runApp_calls_pressed _ _ _ ht, analyze_feedback_calls_some _ _ _ ht,
      displayBlock_good_calls g _ hne h2 h3]
  rfl

/-- Claim C9, witness: the amended theorem applied at a second submit over
a stale cached result "old". -/
theorem C9_witness :
    (runApp (some okTextModel) true "hi" ⟨some "old"⟩).1 =
        ⟨some (stage1Result (some okTextModel) "hi")⟩
    ∧ (runApp (some okTextModel) true "hi" ⟨some "old"⟩).2.calls =
        [analysisPrompt "hi" defaultImageInfo,
         caseStudiesPrompt (stage1Result (some okTextModel) "hi"),
         criticalThinkingPrompt (stage1Result (some okTextModel) "hi"),
         abstractConceptsPrompt (stage1Result (some okTextModel) "hi")] :=
  ⟨(C9_resubmit okTextModel "hi" ⟨some "old"⟩ (by decide)).1,
   (C9_resubmit okTextModel "hi" ⟨some "old"⟩ (by decide)).2 (by decide) (by decide) (by decide)⟩

/-- Claim C10: on the empty (the only falsy) transcribed text,
`analyze_feedback` returns exactly "No transcribed text to analyze." with
the empty trace — no prompt is built and no Gateway call occurs at this
stage, for every model handle. -/
theorem C10_falsy_text (m : Option GenModel) (image_info : String) :
    analyze_feedback m "" image_info = ("No transcribed text to analyze.", Trace.nil) := by
  simp [analyze_feedback]
